import Mathlib

/-!
Verification development for the NoteTube pipeline.

The source under scrutiny is the transcript-extraction module
(`extractVideoId`, `parseVTT`, `getTranscript`) and the note-synthesis
module (`generateNotes`, in its content-type-aware variant from the API
route file and the simpler variant from `src/lib/notes.ts`).

Modelling conventions:
* Strings are processed through their character lists (`String.data`),
  so every operation is an executable structural recursion.
* JavaScript regular expressions are translated into explicit scanning
  functions over `List Char` with the same match semantics.
* The external caption tool and the file system are modelled by a
  `World` record (exit status of invocations, which files exist, file
  contents); the completion service is modelled by an oracle
  `List (Option String)` giving the content returned by each call in
  order (`none` = no content in the response).
* Thrown `Error` messages are modelled as `Except.error` carrying the
  message string; the `catch` blocks of the source are explicit
  post-processing steps on those messages.
-/

namespace NoteTube

/-- Strips `pat` from the front of `s`: returns the remainder when `pat`
is a leading segment of `s`, and `none` otherwise. -/
def stripWord : List Char → List Char → Option (List Char)
  | [], s => some s
  | _ :: _, [] => none
  | p :: ps, c :: cs => if p = c then stripWord ps cs else none

/-- `s` begins with the pattern `pat`. -/
def startsWithL (pat s : List Char) : Bool :=
  (stripWord pat s).isSome

/-- `pat` occurs contiguously somewhere in `s` (JS `String.includes`). -/
def containsSubstring : List Char → List Char → Bool
  | [], pat => startsWithL pat []
  | c :: rest, pat => startsWithL pat (c :: rest) || containsSubstring rest pat

/-- Left trim of ASCII whitespace (model of JS `trim`'s left half). -/
def trimLeft (s : List Char) : List Char := s.dropWhile Char.isWhitespace

/-- Whitespace trim on both ends (model of JS `String.trim`). -/
def trimChars (s : List Char) : List Char :=
  ((trimLeft s).reverse.dropWhile Char.isWhitespace).reverse

theorem stripWord_length_le :
    ∀ (p s r : List Char), stripWord p s = some r → r.length ≤ s.length := by
  intro p
  induction p with
  | nil => intro s r h; simp [stripWord] at h; subst h; exact Nat.le_refl _
  | cons a ps ih =>
    intro s r h
    cases s with
    | nil => simp [stripWord] at h
    | cons c cs =>
      simp only [stripWord] at h
      by_cases hac : a = c
      · rw [if_pos hac] at h
        exact Nat.le_succ_of_le (ih cs r h)
      · rw [if_neg hac] at h; exact absurd h (by simp)

theorem stripWord_append (p r : List Char) : stripWord p (p ++ r) = some r := by
  induction p with
  | nil => rfl
  | cons a ps ih => simp [stripWord, ih]

/-- Splitting on `'\n'` (model of JS `split("\n")`); the accumulator holds
the current line reversed. -/
def splitLinesAux : List Char → List Char → List (List Char)
  | [], acc => [acc.reverse]
  | c :: rest, acc =>
    if c = '\n' then acc.reverse :: splitLinesAux rest []
    else splitLinesAux rest (c :: acc)

def splitLines (s : List Char) : List (List Char) := splitLinesAux s []

/-- Joining kept cue lines with a single space (model of `join(" ")`). -/
def joinSpace : List (List Char) → List Char
  | [] => []
  | [l] => l
  | l :: ls => l ++ ' ' :: joinSpace ls

/-- Worker for `replaceAll`.  While `skip` is positive the characters of
an already-matched occurrence of the pattern are being consumed; at
`skip = 0` the pattern is tried at the current position, and on a match
the replacement is emitted and the matched characters are skipped.
Replaced text is not rescanned, matching JS `replace(/pat/g, rep)`. -/
def replaceAllAux (pat rep : List Char) : List Char → Nat → List Char
  | [], _ => []
  | _ :: rest, skip + 1 => replaceAllAux pat rep rest skip
  | c :: rest, 0 =>
    if startsWithL pat (c :: rest) then
      rep ++ replaceAllAux pat rep rest (pat.length - 1)
    else c :: replaceAllAux pat rep rest 0

/-- Global replacement of the literal pattern `pat` by `rep`
(model of JS `String.replace(/pat/g, rep)` for a literal pattern). -/
def replaceAll (pat rep s : List Char) : List Char :=
  replaceAllAux pat rep s 0

/-- State machine for `replace(/<[^>]+>/g, "")`.  The second argument is
`none` outside a candidate tag, and `some buf` (body so far, reversed)
after an opening `'<'`.  `<>` is not a match (the body needs at least
one character), and an unclosed `'<'` is emitted verbatim, both as in
the regular expression. -/
def stripTagsAux : List Char → Option (List Char) → List Char
  | [], none => []
  | [], some buf => '<' :: buf.reverse
  | c :: rest, none =>
    if c = '<' then stripTagsAux rest (some [])
    else c :: stripTagsAux rest none
  | c :: rest, some buf =>
    if c = '>' then
      if buf.isEmpty then '<' :: '>' :: stripTagsAux rest none
      else stripTagsAux rest none
    else stripTagsAux rest (some (c :: buf))

/-- `replace(/<[^>]+>/g, "")`: remove inline markup tags. -/
def stripTagsOut (s : List Char) : List Char := stripTagsAux s none

/-- The six `replace` calls decoding HTML entities, in source order
(`&nbsp;`, `&amp;`, `&lt;`, `&gt;`, `&quot;`, `&#39;`). -/
def decodeEntities (s : List Char) : List Char :=
  replaceAll "&#39;".data "'".data
    (replaceAll "&quot;".data "\"".data
      (replaceAll "&gt;".data ">".data
        (replaceAll "&lt;".data "<".data
          (replaceAll "&amp;".data "&".data
            (replaceAll "&nbsp;".data " ".data s)))))

/-- `/^\d+$/` on a line. -/
def isAllDigits (s : List Char) : Bool := !s.isEmpty && s.all Char.isDigit

/-- Character class of `/^[\d:.,\s->]+$/` (the `-` is literal). -/
def residualClassChar (c : Char) : Bool :=
  c.isDigit || c = ':' || c = '.' || c = ',' || c.isWhitespace || c = '-' || c = '>'

/-- `/^[\d:.,\s->]+$/` on a line: residual timing/position artifacts. -/
def isResidualTiming (s : List Char) : Bool := !s.isEmpty && s.all residualClassChar

/-- The skip conditions of `parseVTT`, applied to the trimmed line:
`WEBVTT` header, `Kind:`/`Language:` metadata, timestamp lines
(containing `-->`), empty lines, pure cue-index numbers, and residual
timing artifacts.  Each disjunct is one `continue` branch of the source
loop. -/
def lineSkip (trimmed : List Char) : Bool :=
  trimmed == "WEBVTT".data
  || startsWithL "Kind:".data trimmed
  || startsWithL "Language:".data trimmed
  || containsSubstring trimmed "-->".data
  || trimmed.isEmpty
  || isAllDigits trimmed
  || isResidualTiming trimmed

/-- Tag stripping, entity decoding and final trim applied to a
non-skipped trimmed line (the `cleanedLine` expression of `parseVTT`). -/
def cleanedLine (trimmed : List Char) : List Char :=
  trimChars (decodeEntities (stripTagsOut trimmed))

/-- One iteration of the `parseVTT` loop: skip classified lines, clean
the rest, and keep a cleaned line only if non-empty and not already
present in the output (exact-match deduplication). -/
def processLine (acc : List (List Char)) (line : List Char) : List (List Char) :=
  let trimmed := trimChars line
  if lineSkip trimmed then acc
  else
    let cleaned := cleanedLine trimmed
    if !cleaned.isEmpty && !acc.contains cleaned then acc ++ [cleaned] else acc

/-- The `textLines` array built by `parseVTT`. -/
def vttTextLines (s : List Char) : List (List Char) :=
  (splitLines s).foldl processLine []

def parseVTTChars (s : List Char) : List Char := joinSpace (vttTextLines s)

/-- Model of `parseVTT`: VTT content to deduplicated plain text. -/
def parseVTT (s : String) : String := String.mk (parseVTTChars s.data)

/-! ### URL parsing (`extractVideoId`) -/

/-- The character class `[a-zA-Z0-9_-]` of the video-id regular
expressions. -/
def idChar (c : Char) : Bool :=
  ('a' ≤ c && c ≤ 'z') || ('A' ≤ c && c ≤ 'Z') || ('0' ≤ c && c ≤ '9') || c = '_' || c = '-'

/-- Literal part of `/(?:youtube\.com\/watch\?v=)([a-zA-Z0-9_-]{11})/`. -/
def watchMarker : List Char := "youtube.com/watch?v=".data

/-- Literal part of `/(?:youtu\.be\/)([a-zA-Z0-9_-]{11})/`. -/
def shortMarker : List Char := "youtu.be/".data

/-- Literal part of `/(?:youtube\.com\/embed\/)([a-zA-Z0-9_-]{11})/`. -/
def embedMarker : List Char := "youtube.com/embed/".data

/-- Try one of the id patterns at the current position: the literal
marker followed by exactly 11 characters of the id class (the capture
group); anything may follow. -/
def matchHere (marker s : List Char) : Option (List Char) :=
  match stripWord marker s with
  | none => none
  | some rest =>
    let candidate := rest.take 11
    if candidate.length = 11 && candidate.all idChar then some candidate else none

/-- Unanchored leftmost search for one id pattern (JS `String.match`
against an unanchored regular expression). -/
def findPat (marker : List Char) : List Char → Option (List Char)
  | [] => none
  | c :: rest =>
    match matchHere marker (c :: rest) with
    | some found => some found
    | none => findPat marker rest

/-- The pattern loop of `extractVideoId`: the three URL shapes are tried
in source order, and the first pattern that matches anywhere wins. -/
def extractVideoIdChars (s : List Char) : Option (List Char) :=
  match findPat watchMarker s with
  | some found => some found
  | none =>
    match findPat shortMarker s with
    | some found => some found
    | none => findPat embedMarker s

/-- Model of `extractVideoId`: the 11-character video id, or `none` for
an unrecognized URL. -/
def extractVideoId (url : String) : Option String :=
  (extractVideoIdChars url.data).map String.mk

/-! ### The external world of `getTranscript`

`getTranscript` interacts with the file system and the `yt-dlp` tool.
A `World` fixes the outcome of every such interaction for one request:
the temporary path (`join(tmpdir(), "yt-transcript-" + randomUUID())`),
whether the primary English caption download exits zero, which files
exist afterwards, the output of the caption listing (`none` models a
non-zero exit / timeout of `yt-dlp --list-subs`), whether the
per-language download exits zero, and the contents of each file. -/

structure World where
  tempPath : String
  enDownloadOk : Bool
  fileExists : String → Bool
  listSubs : Option String
  langDownloadOk : Bool
  read : String → String

/-- Observable side effects of `getTranscript`, in order: computing the
temporary path, invoking the external tool, reading a caption file, and
removing the request's temporary files. -/
inductive Action
  | mkTemp (path : String)
  | tool (cmd : String)
  | readF (path : String)
  | cleanup (pathGlob : String)
deriving DecidableEq

/-- The primary English caption download command. -/
def dlEnCmd (tempPath videoId : String) : String :=
  "yt-dlp --write-auto-sub --write-sub --sub-langs \"en.*\" --skip-download --sub-format vtt -o \""
    ++ tempPath ++ "\" \"https://www.youtube.com/watch?v=" ++ videoId ++ "\""

/-- The caption listing command. -/
def listSubsCmd (videoId : String) : String :=
  "yt-dlp --list-subs \"https://www.youtube.com/watch?v=" ++ videoId ++ "\""

/-- The fallback per-language caption download command. -/
def dlLangCmd (tempPath lang videoId : String) : String :=
  "yt-dlp --write-auto-sub --sub-langs \"" ++ lang
    ++ "\" --skip-download --sub-format vtt -o \"" ++ tempPath
    ++ "\" \"https://www.youtube.com/watch?v=" ++ videoId ++ "\""

/-- The `possibleFiles` list probed for the English caption variants, in
source order: `en`, `en-US`, `en-GB`, `en-orig`. -/
def possibleEnFiles (tempPath : String) : List String :=
  [tempPath ++ ".en.vtt", tempPath ++ ".en-US.vtt",
   tempPath ++ ".en-GB.vtt", tempPath ++ ".en-orig.vtt"]

/-- `[a-z]` test for the language-listing regular expression. -/
def isLowerAZ (c : Char) : Bool := 'a' ≤ c && c ≤ 'z'

/-- `[A-Za-z]` test for the language-listing regular expression. -/
def isLetterAZ (c : Char) : Bool := ('a' ≤ c && c ≤ 'z') || ('A' ≤ c && c ≤ 'Z')

/-- The `\s+.*vtt` tail of the language-listing regular expression: at
least one whitespace character, then `vtt` somewhere in the rest of the
line. -/
def wsThenVtt : List Char → Bool
  | [] => false
  | c :: rest => c.isWhitespace && containsSubstring rest "vtt".data

/-- One line matched against `^([a-z]{2}(?:-[A-Za-z]+)?)\s+.*vtt`;
returns the capture group.  The optional `-[A-Za-z]+` part is greedy,
and if it matches, the following character cannot satisfy `\s` after
backtracking (it would be a letter or the `-`), so no backtracking case
is needed. -/
def lineLangMatch : List Char → Option (List Char)
  | a :: b :: rest =>
    if isLowerAZ a && isLowerAZ b then
      match rest with
      | '-' :: rest2 =>
        let letters := rest2.takeWhile isLetterAZ
        if !letters.isEmpty && wsThenVtt (rest2.drop letters.length) then
          some (a :: b :: '-' :: letters)
        else none
      | _ => if wsThenVtt rest then some [a, b] else none
    else none
  | _ => none

/-- Model of the `listOutput.match(/^([a-z]{2}(?:-[A-Za-z]+)?)\s+.*vtt/m)`
call: with the `m` flag, `^` anchors at line starts, and the first
matching line (in order) wins. -/
def autoLangMatch (out : String) : Option String :=
  ((splitLines out.data).findSome? lineLangMatch).map String.mk

/-- The probe for an English caption file.  In the source the same
`possibleFiles.find(existsSync)` probe appears twice: once in the `try`
branch after a successful download and once in the `catch` branch
("command might fail but still create the file"); the branch taken
depends on the exit status but the probe is identical. -/
def probeEn (w : World) : Option String :=
  if w.enDownloadOk then (possibleEnFiles w.tempPath).find? w.fileExists
  else (possibleEnFiles w.tempPath).find? w.fileExists

/-- The fallback step: list available captions, match the first language
offered in VTT form, download it, and probe for the resulting file.
Errors of both `execSync` calls are swallowed (`listSubs = none` models
a throwing listing; the download's exit status is ignored entirely). -/
def langFallback (videoId : String) (w : World) : Option String × List Action :=
  match w.listSubs with
  | none => (none, [Action.tool (listSubsCmd videoId)])
  | some out =>
    match autoLangMatch out with
    | none => (none, [Action.tool (listSubsCmd videoId)])
    | some lang =>
      let sourceFile := w.tempPath ++ "." ++ lang ++ ".vtt"
      (if w.fileExists sourceFile then some sourceFile else none,
       [Action.tool (listSubsCmd videoId), Action.tool (dlLangCmd w.tempPath lang videoId)])

/-- Subtitle-file selection: the English probe first, the language
fallback only if it found nothing. -/
def selectSubtitleFile (videoId : String) (w : World) : Option String × List Action :=
  match probeEn w with
  | some f => (some f, [])
  | none => langFallback videoId w

/-- Reading and parsing the selected file.  The source re-checks
`existsSync(subtitleFile)`, reads it, parses it, cleans up the
temporary files, and only then rejects an empty transcript
(`!transcript || transcript.trim().length === 0`). -/
def readPhase (f : String) (w : World) : Except String String × List Action :=
  if w.fileExists f then
    let transcript := parseVTT (w.read f)
    if transcript = "" || (trimChars transcript.data).isEmpty then
      (Except.error "Transcript is empty", [Action.readF f, Action.cleanup w.tempPath])
    else
      (Except.ok transcript, [Action.readF f, Action.cleanup w.tempPath])
  else (Except.error "No transcript available for this video", [])

/-- The body of `getTranscript`'s outer `try` block, after the URL has
been parsed: errors are the thrown messages. -/
def getTranscriptInner (videoId : String) (w : World) : Except String String × List Action :=
  let pre := [Action.mkTemp w.tempPath, Action.tool (dlEnCmd w.tempPath videoId)]
  match selectSubtitleFile videoId w with
  | (none, acts) => (Except.error "No transcript available for this video", pre ++ acts)
  | (some f, acts) =>
    match readPhase f w with
    | (r, acts2) => (r, pre ++ acts ++ acts2)

/-- The outer `catch` block: clean up, and rethrow as one of the two
public messages depending on whether the caught message mentions
`"No transcript"` or `"empty"`. -/
def mapCaughtError (msg : String) : String :=
  if containsSubstring msg.data "No transcript".data
      || containsSubstring msg.data "empty".data then
    "No transcript available for this video. The video may not have captions."
  else
    "Could not fetch transcript. Please try again."

/-- Model of `getTranscript`: the returned transcript or the thrown
message, together with the trace of external actions.  The
`"Invalid YouTube URL"` throw happens before the temporary path is
computed and before the `try` block, so it is not remapped by the
`catch` and produces an empty trace. -/
def getTranscript (url : String) (w : World) : Except String String × List Action :=
  match extractVideoId url with
  | none => (Except.error "Invalid YouTube URL", [])
  | some videoId =>
    match getTranscriptInner videoId w with
    | (Except.ok t, acts) => (Except.ok t, acts)
    | (Except.error msg, acts) =>
      (Except.error (mapCaughtError msg), acts ++ [Action.cleanup w.tempPath])

/-- The spec's failure taxonomy for the Extractor (§7), keyed by the
message the module throws: `"Invalid YouTube URL"` is the malformed
input case, the `"No transcript available…"` rethrow covers missing
tracks and empty-after-normalization text, and everything else is the
generic fallback. -/
inductive ExtractErrorKind
  | InvalidReference
  | NoCaptionsAvailable
  | ExtractionFailed
deriving DecidableEq

def errorKind (msg : String) : ExtractErrorKind :=
  if msg = "Invalid YouTube URL" then ExtractErrorKind.InvalidReference
  else if msg = "No transcript available for this video. The video may not have captions." then
    ExtractErrorKind.NoCaptionsAvailable
  else ExtractErrorKind.ExtractionFailed


/-! ### The forbidden-vocabulary pattern of the overview fast path

The source validates the fast-path output against

`/\b(importan(ce|t)|valu(e|able)|success(ful)?|benefit(s|ial)|advice|emphasize[sd]?|highlight[sd]?|keys?|critical(ly)?|significan(ce|t)|essential|crucial|overcom(e|ing)|matter(s)?|empower(s|ing|ment)?)\b/i`

Every alternative of the group is a fixed word, so `test` succeeds
exactly when one of the expanded words occurs in the (case-folded)
string delimited by word boundaries on both sides. -/

/-- JS `\w`: `[A-Za-z0-9_]`. -/
def isWordChar (c : Char) : Bool :=
  ('a' <= c && c <= 'z') || ('A' <= c && c <= 'Z') || ('0' <= c && c <= '9') || c = '_'

/-- The expansion of every alternative of the forbidden-words regular
expression, in lowercase. -/
def forbiddenWords : List (List Char) :=
  ["importance".data, "important".data, "value".data, "valuable".data,
   "success".data, "successful".data, "benefits".data, "beneficial".data,
   "advice".data,
   "emphasize".data, "emphasizes".data, "emphasized".data,
   "highlight".data, "highlights".data, "highlighted".data,
   "key".data, "keys".data,
   "critical".data, "critically".data,
   "significance".data, "significant".data,
   "essential".data, "crucial".data,
   "overcome".data, "overcoming".data,
   "matter".data, "matters".data,
   "empower".data, "empowers".data, "empowering".data, "empowerment".data]

/-- The trailing `\b`: end of input, or a non-word character. -/
def boundaryAfter : List Char → Bool
  | [] => true
  | c :: _ => !isWordChar c

/-- One word matched literally at the current position, followed by a
word boundary. -/
def matchWordAt (w s : List Char) : Bool :=
  match stripWord w s with
  | some rest => boundaryAfter rest
  | none => false

/-- Scan for any of `words` at a position opening on a word boundary;
`prevWord` records whether the previous character was a word
character. -/
def wordListScan (words : List (List Char)) : List Char → Bool → Bool
  | [], _ => false
  | c :: rest, prevWord =>
    (!prevWord && words.any (fun w => matchWordAt w (c :: rest)))
      || wordListScan words rest (isWordChar c)

/-- Case-insensitive word-boundary search for any word of `words`. -/
def wordBoundarySearch (words : List (List Char)) (s : String) : Bool :=
  wordListScan words (s.data.map Char.toLower) false

/-- Model of `forbiddenWordsRegex.test`. -/
def forbiddenWordsTest (s : String) : Bool :=
  wordBoundarySearch forbiddenWords s

/-- Modelled from the spec: the forbidden-word list as the spec (and the
prompt text) enumerates it - the 26 words and 1 phrase-level variants
written out in the FORBIDDEN-words block of the overview prompts.  Used
only to compare the code's trigger pattern against the spec's list. -/
def specListedForbiddenWords : List (List Char) :=
  ["important".data, "importance".data, "valuable".data, "value".data,
   "successful".data, "success".data, "beneficial".data, "benefits".data,
   "emphasizes".data, "emphasize".data, "highlights".data, "highlight".data,
   "key".data, "critical".data, "critically".data,
   "significant".data, "significance".data, "essential".data, "crucial".data,
   "matters".data, "matter".data,
   "empowers".data, "empower".data, "empowering".data, "empowerment".data,
   "overcome".data, "overcoming".data]

/-- Modelled from the spec: a fast-path output "contains a
forbidden-vocabulary term" when one of the spec-listed words occurs as
a whole word (case-insensitively). -/
def specListedForbiddenTest (s : String) : Bool :=
  wordBoundarySearch specListedForbiddenWords s

/-! ### The completion service

One completion call is a `Call` record (model name, role-tagged
messages, sampling temperature, output ceiling).  The service's
behaviour for one request is an oracle `List (Option String)`: the
`n`-th element is `response.choices[0]?.message?.content` of the `n`-th
call issued (`none` = no content).  Temperatures are stored in tenths
(0.4 is `4`) to keep the record decidable. -/

structure Call where
  model : String
  messages : List (String × String)
  temperatureTenths : Nat
  maxTokens : Nat
deriving DecidableEq

/-- Content returned for the `n`-th completion call. -/
def resp (oracle : List (Option String)) (n : Nat) : Option String :=
  (oracle.get? n).bind id

/-! ### Note synthesis, content-type-aware variant

The `generateNotes(transcript, intent, videoType = "educational")`
variant of the API route file: four intents, overview handled by a
fast path plus a two-step fallback. -/

namespace NotesCT

inductive Intent
  | learn
  | reference
  | action
  | overview
deriving DecidableEq

inductive VideoType
  | educational
  | entertainment
deriving DecidableEq

def CT_LEARN_PROMPT : String :=
  "\nYou are a learning assistant.\n\nGiven a video transcript, create structured study notes that include:\n- Key concepts with clear explanations\n- Important definitions\n- Main ideas and insights\n- Logical organization with headers and subheaders\n\nFormat the notes in Markdown.\n"

def CT_REFERENCE_PROMPT : String :=
  "\nYou are a reference assistant.\n\nGiven a video transcript, create a concise reference document that includes:\n- Bullet-point summary of key facts\n- Important terms and definitions\n- Notable quotes or statistics (if present)\n\nFormat the notes in Markdown for quick lookup.\n"

def CT_ACTION_PROMPT : String :=
  "\nYou are a how-to assistant.\n\nGiven a video transcript, extract actionable steps that include:\n- Numbered step-by-step instructions\n- Prerequisites or requirements (if mentioned)\n- Tips or warnings (only if explicitly stated)\n\nFormat the output in Markdown using numbered lists.\n"

def EDUCATIONAL_OVERVIEW_PROMPT : String :=
  "\nTask: Overview Writing (Educational Content)\n\nWrite ONE natural, conversational sentence (15-25 words) describing what this educational video covers.\n\nTone: Casual and conversational—imagine telling a coworker what the video teaches or explains.\n\nGuideline structure (flexible):\nThe video [verb] [topic], [verb] [topic], and [verb] [topic]\n\nInstructional/explanatory verbs to use (pick 3 different ones):\n- demonstrates, teaches, explains, walks through, covers, discusses, goes over, shows\n\nIMPORTANT: \n- Use 3 different verbs for natural variety\n- Feel free to vary the sentence structure—don't force the template if it sounds stiff\n- Write naturally, as if casually describing the video to someone\n\nFORBIDDEN words (do NOT use these or their variants):\n- important, importance, valuable, value, successful, success, beneficial, benefits\n- emphasizes, emphasize, highlights, highlight, key, critical, critically\n- significant, significance, essential, crucial, matters, matter\n- empowers, empower, empowering, empowerment, overcome, overcoming\n\nRules:\n- Just describe WHAT the video covers—no opinions or why it matters\n- Keep it simple and conversational\n- Avoid stiff phrases like \"various aspects of\" or \"for the purpose of\"\n- Don't use fancy academic language—keep it casual\n\nExamples:\n\n1. Tech Tutorial:\n\"The video demonstrates how to use React hooks, explains state management patterns, and walks through component lifecycle basics.\"\n\n2. Science Education:\n\"The video teaches how photosynthesis works, explains what chloroplasts do, and covers how light becomes chemical energy.\"\n\n3. Career Advice:\n\"The video discusses switching careers in tech, covers writing better resumes, and shows ways to network for job interviews.\"\n\n4. Productivity/How-To:\n\"The video walks through time-blocking methods, explains the Pomodoro technique, and demonstrates different task management tools.\"\n\nTranscript:\n"

def ENTERTAINMENT_OVERVIEW_PROMPT : String :=
  "\nTask: Overview Writing (Entertainment Content)\n\nWrite ONE natural, conversational sentence (15-25 words) describing what this entertainment video is about.\n\nTone: Casual and conversational—imagine telling a coworker what the video shows or follows.\n\nGuideline structure (flexible):\nThe video [verb] [topic], [verb] [topic], and [verb] [topic]\n\nNarrative/experiential verbs to use (pick 3 different ones):\n- follows, explores, showcases, depicts, chronicles, presents\n\nIMPORTANT: \n- Use 3 different verbs for natural variety\n- Feel free to vary the sentence structure—don't force the template if it sounds stiff\n- Write naturally, as if casually describing the video to someone\n- Focus on describing the EXPERIENCE or NARRATIVE, not instruction\n\nDO NOT use instructional verbs:\n- Do NOT use: demonstrates, teaches, explains, walks through (even if creator casually shares info)\n- This is entertainment—describe what happens, not what is taught\n\nFORBIDDEN words (do NOT use these or their variants):\n- important, importance, valuable, value, successful, success, beneficial, benefits\n- emphasizes, emphasize, highlights, highlight, key, critical, critically\n- significant, significance, essential, crucial, matters, matter\n- empowers, empower, empowering, empowerment, overcome, overcoming\n\nRules:\n- Just describe WHAT the video is about—no opinions or why it matters\n- Keep it simple and conversational\n- Avoid stiff phrases like \"various aspects of\" or \"for the purpose of\"\n- Don't use fancy academic language—keep it casual\n\nExamples:\n\n1. Gaming Stream:\n\"The video follows a player exploring a new game world, showcases combat mechanics, and depicts multiplayer interactions.\"\n\n2. Travel Vlog:\n\"The video chronicles a trip through Japan, explores local cuisine, and showcases cultural experiences in Tokyo.\"\n\n3. Lifestyle/Daily Vlog:\n\"The video follows a day in the creator's life, showcases their morning routine, and presents behind-the-scenes moments.\"\n\n4. Storytelling/Narrative:\n\"The video depicts a group's road trip adventure, follows their challenges along the way, and explores small-town encounters.\"\n\nTranscript:\n"

def EDUCATIONAL_OVERVIEW_SCOPE_PROMPT : String :=
  "\nTask: Subject Extraction (Educational Content)\n\nFrom the transcript, identify exactly 3-4 main subjects being taught or explained.\n\nFormat:\nReturn as bullet points using this exact format:\n- [Noun phrase]\n- [Noun phrase]\n- [Noun phrase]\n- [Noun phrase]\n\nRules:\n- Use concrete NOUN PHRASES only (no verbs, no actions, no adjectives)\n- Each subject must be a primary topic, not a brief mention\n- Do NOT include evaluative words (important, key, critical, essential, etc.)\n- Do NOT include opinions, advice, or recommendations\n- Do NOT describe value, benefits, or significance\n\nExamples:\n\nTech Tutorial Transcript → Subjects:\n- React hooks\n- State management\n- Component lifecycle\n- Custom hooks\n\nScience Education Transcript → Subjects:\n- Photosynthesis process\n- Chloroplasts\n- Light reactions\n- Carbon fixation\n\nCareer Advice Transcript → Subjects:\n- Career transitions\n- Resume writing strategies\n- Networking approaches\n- Interview preparation\n\nNow extract 3-4 subjects from the transcript below.\n"

def ENTERTAINMENT_OVERVIEW_SCOPE_PROMPT : String :=
  "\nTask: Subject Extraction (Entertainment Content)\n\nFrom the transcript, identify exactly 3-4 main subjects, experiences, or narrative elements.\n\nFormat:\nReturn as bullet points using this exact format:\n- [Noun phrase]\n- [Noun phrase]\n- [Noun phrase]\n- [Noun phrase]\n\nRules:\n- Use concrete NOUN PHRASES only (no verbs, no actions, no adjectives)\n- Each subject must be a primary topic, not a brief mention\n- Focus on experiences, activities, places, or narrative elements—not lessons\n- Do NOT include evaluative words (important, key, critical, essential, etc.)\n- Do NOT include opinions, advice, or recommendations\n- Do NOT describe value, benefits, or significance\n\nExamples:\n\nGaming Stream Transcript → Subjects:\n- Game world exploration\n- Combat mechanics\n- Multiplayer interactions\n- Character progression\n\nTravel Vlog Transcript → Subjects:\n- Japan trip\n- Local cuisine experiences\n- Tokyo cultural sites\n- Travel challenges\n\nLifestyle Vlog Transcript → Subjects:\n- Daily routine\n- Morning activities\n- Behind-the-scenes moments\n- Personal experiences\n\nNow extract 3-4 subjects from the transcript below.\n"

def EDUCATIONAL_OVERVIEW_REWRITE_PROMPT : String :=
  "\nTask: Overview Writing (Educational Content)\n\nUsing ONLY the subjects listed below, write ONE natural, conversational sentence (15-25 words).\n\nTone: Casual and conversational—like you're telling someone what the video teaches or explains.\n\nGuideline structure (flexible):\nThe video [verb] [topic], [verb] [topic], and [verb] [topic]\n\nInstructional/explanatory verbs (pick 3 different ones):\n- demonstrates, teaches, explains, walks through, covers, discusses, goes over, shows\n\nIMPORTANT: \n- Use a different verb for each subject\n- Write naturally—don't force a rigid structure if it sounds awkward\n- Keep it simple and conversational\n\nFORBIDDEN words (do NOT use):\n- important, importance, valuable, value, successful, success, beneficial, benefits\n- emphasizes, emphasize, highlights, highlight, key, critical, critically\n- significant, significance, essential, crucial, matters, matter\n- empowers, empower, empowering, empowerment, overcome, overcoming\n\nRules:\n- Combine subjects into one natural, flowing sentence\n- Use 3 different verbs\n- Keep it conversational—avoid stiff academic phrasing\n- Write like you're casually describing the video to someone\n\nExamples:\n\nSubjects: React hooks, State management, Component lifecycle\n→ \"The video demonstrates React hooks, explains how to manage state, and covers component lifecycle basics.\"\n\nSubjects: Photosynthesis, Chloroplasts, Light energy conversion\n→ \"The video teaches how photosynthesis works, explains what chloroplasts do, and shows how light becomes chemical energy.\"\n\nSubjects: Career transitions, Resume strategies, Networking approaches\n→ \"The video discusses switching careers in tech, covers writing better resumes, and walks through networking approaches for interviews.\"\n\nNow write the overview using these subjects:\n\nSubjects:\n"

def ENTERTAINMENT_OVERVIEW_REWRITE_PROMPT : String :=
  "\nTask: Overview Writing (Entertainment Content)\n\nUsing ONLY the subjects listed below, write ONE natural, conversational sentence (15-25 words).\n\nTone: Casual and conversational—like you're telling someone what the video is about.\n\nGuideline structure (flexible):\nThe video [verb] [topic], [verb] [topic], and [verb] [topic]\n\nNarrative/experiential verbs (pick 3 different ones):\n- follows, explores, showcases, depicts, chronicles, presents\n\nIMPORTANT: \n- Use a different verb for each subject\n- Write naturally—don't force a rigid structure if it sounds awkward\n- Keep it simple and conversational\n- Focus on describing the EXPERIENCE or NARRATIVE, not instruction\n\nDO NOT use instructional verbs:\n- Do NOT use: demonstrates, teaches, explains, walks through, covers, discusses, goes over\n- Even if the creator shares information, describe it as narrative/experience\n- This is entertainment—describe what happens, not what is taught\n\nFORBIDDEN words (do NOT use):\n- important, importance, valuable, value, successful, success, beneficial, benefits\n- emphasizes, emphasize, highlights, highlight, key, critical, critically\n- significant, significance, essential, crucial, matters, matter\n- empowers, empower, empowering, empowerment, overcome, overcoming\n\nRules:\n- Combine subjects into one natural, flowing sentence\n- Use 3 different verbs\n- Keep it conversational—avoid stiff academic phrasing\n- Write like you're casually describing the video to someone\n\nExamples:\n\nSubjects: Game world exploration, Combat mechanics, Multiplayer interactions\n→ \"The video follows a player exploring a new game world, showcases combat mechanics, and depicts multiplayer interactions.\"\n\nSubjects: Japan trip, Local cuisine, Tokyo cultural sites\n→ \"The video chronicles a trip through Japan, explores local cuisine experiences, and showcases cultural sites in Tokyo.\"\n\nSubjects: Daily routine, Morning activities, Behind-the-scenes moments\n→ \"The video follows the creator's daily routine, presents morning activities, and showcases behind-the-scenes moments.\"\n\nNow write the overview using these subjects:\n\nSubjects:\n"

/-- The `intentPrompts` record (overview is excluded from its type in
the source and never looked up; it is mapped to `""` here). -/
def intentPrompts : Intent → String
  | Intent.learn => CT_LEARN_PROMPT
  | Intent.reference => CT_REFERENCE_PROMPT
  | Intent.action => CT_ACTION_PROMPT
  | Intent.overview => ""

/-- The two-step fallback pipeline of the overview intent: a
deterministic subject-extraction call, then a rewrite call seeded only
with the extracted subjects.  `c1` is the already-issued fast-path
call.  A missing (or empty, which is falsy in JS) content at either
step is a thrown error. -/
def overviewFallback (scopePrompt rewritePrompt transcript : String)
    (c1 : Call) (oracle : List (Option String)) : Except String String × List Call :=
  let c2 : Call := ⟨"gpt-4o-mini", [("system", scopePrompt), ("user", transcript)], 0, 200⟩
  match resp oracle 1 with
  | none => (Except.error "Failed to extract subjects", [c1, c2])
  | some subjects =>
    if subjects = "" then (Except.error "Failed to extract subjects", [c1, c2])
    else
      let c3 : Call :=
        ⟨"gpt-4o-mini", [("system", rewritePrompt ++ "\n" ++ subjects)], 4, 150⟩
      match resp oracle 2 with
      | none => (Except.error "Failed to generate overview", [c1, c2, c3])
      | some ov =>
        if ov = "" then (Except.error "Failed to generate overview", [c1, c2, c3])
        else (Except.ok ov, [c1, c2, c3])

/-- The body of `generateNotes`'s `try` block.  For the overview intent
the fast-path call is issued first; the source's
`if (!overview || forbiddenWordsRegex.test(overview))` is the split
below: content absent, or empty (JS falsy), or matching the forbidden
pattern, triggers the fallback, otherwise the fast-path text is
returned unchanged.  Other intents issue exactly one call. -/
def generateNotesInner (transcript : String) (intent : Intent) (videoType : VideoType)
    (oracle : List (Option String)) : Except String String × List Call :=
  if intent = Intent.overview then
    let fastPrompt :=
      if videoType = VideoType.educational then EDUCATIONAL_OVERVIEW_PROMPT
      else ENTERTAINMENT_OVERVIEW_PROMPT
    let scopePrompt :=
      if videoType = VideoType.educational then EDUCATIONAL_OVERVIEW_SCOPE_PROMPT
      else ENTERTAINMENT_OVERVIEW_SCOPE_PROMPT
    let rewritePrompt :=
      if videoType = VideoType.educational then EDUCATIONAL_OVERVIEW_REWRITE_PROMPT
      else ENTERTAINMENT_OVERVIEW_REWRITE_PROMPT
    let c1 : Call := ⟨"gpt-4o-mini", [("system", fastPrompt), ("user", transcript)], 4, 150⟩
    match resp oracle 0 with
    | none => overviewFallback scopePrompt rewritePrompt transcript c1 oracle
    | some fast =>
      if fast = "" || forbiddenWordsTest fast then
        overviewFallback scopePrompt rewritePrompt transcript c1 oracle
      else (Except.ok fast, [c1])
  else
    let c : Call :=
      ⟨"gpt-4o-mini", [("system", intentPrompts intent), ("user", transcript)], 7, 2000⟩
    match resp oracle 0 with
    | none => (Except.error "No content returned from model", [c])
    | some notes =>
      if notes = "" then (Except.error "No content returned from model", [c])
      else (Except.ok notes, [c])

/-- Model of the content-type-aware `generateNotes`: the surrounding
`catch` turns every thrown error into `"Failed to generate notes"`. -/
def generateNotes (transcript : String) (intent : Intent) (videoType : VideoType)
    (oracle : List (Option String)) : Except String String × List Call :=
  match generateNotesInner transcript intent videoType oracle with
  | (Except.ok notes, calls) => (Except.ok notes, calls)
  | (Except.error _, calls) => (Except.error "Failed to generate notes", calls)

/-- A call of `generateNotes` with the optional `videoType` argument
omitted: the source's parameter default `videoType: VideoType =
"educational"` makes it the explicit-educational call. -/
def generateNotesNoHint (transcript : String) (intent : Intent)
    (oracle : List (Option String)) : Except String String × List Call :=
  generateNotes transcript intent VideoType.educational oracle

end NotesCT

/-! ### Note synthesis, `src/lib/notes.ts` variant

Three intents; the overview intent always runs the two-step
subject-extraction / rewrite pipeline (no fast path). -/

namespace NotesLib

inductive Intent
  | learn
  | action
  | overview
deriving DecidableEq

def LIB_LEARN_PROMPT : String :=
  "\nYou are a learning assistant. \n\nGiven a video transcript, create structured study notes that are beginner-friendly. Avoid using Markdown symbols (#, ##, *, etc.) and avoid LaTeX formatting. Use plain text with headings, subheadings, and bullet points. Explain formulas in words or using simple symbols like +, -, *, /. Keep explanations simple and clear for someone new to the topic. \n\nInclude:\n- Clear headings and subheadings\n- Bullet points for main ideas\n- Definitions of key terms in simple language\n- Step-by-step explanations for formulas or methods\n- Short examples if helpful\n\nFocus only on what is explained in the video. These notes are for a surface-level understanding to help someone follow along with the video.\n\n\n"

def LIB_ACTION_PROMPT : String :=
  "\nYou are an action extraction assistant.\n\nGiven a video transcript, extract actions the speaker explicitly or implicitly recommends the viewer take.\n\nRules:\n- Do NOT add new advice or improve the steps\n- Do NOT generalize beyond what the video discusses\n- Prefer concrete, actionable tasks over vague motivation\n- Exclude calls to like, subscribe, or follow unless they are central to the video\n- If no meaningful actions are present, say: “No clear actions identified.”\n\nOutput format:\n\nGoal:\n- One sentence describing what the viewer is trying to achieve, based strictly on the video.\n\nSteps:\n- Numbered list of actions the viewer could take\n- Preserve the scope and specificity of the video\n\n\n\n\n\n\n\n"

def OVERVIEW_SCOPE_PROMPT : String :=
  "\nTask: Subject Extraction\n\nFrom the transcript, identify exactly 3-4 main subjects, experiences, or narrative elements.\n\nFormat:\nReturn as bullet points using this exact format:\n- [Noun phrase]\n- [Noun phrase]\n- [Noun phrase]\n- [Noun phrase]\n\nRules:\n- Use concrete NOUN PHRASES only (no verbs, no actions, no adjectives)\n- Each subject must be a primary topic, not a brief mention\n- Focus on experiences, activities, places, or narrative elements—not lessons\n- Do NOT include evaluative words (important, key, critical, essential, etc.)\n- Do NOT include opinions, advice, or recommendations\n- Do NOT describe value, benefits, or significance\n\nExamples:\n\nGaming Stream Transcript → Subjects:\n- Game world exploration\n- Combat mechanics\n- Multiplayer interactions\n- Character progression\n\nTravel Vlog Transcript → Subjects:\n- Japan trip\n- Local cuisine experiences\n- Tokyo cultural sites\n- Travel challenges\n\nLifestyle Vlog Transcript → Subjects:\n- Daily routine\n- Morning activities\n- Behind-the-scenes moments\n- Personal experiences\n\nNow extract 3-4 subjects from the transcript below.\n"

def OVERVIEW_REWRITE_PROMPT : String :=
  "\nTask: Overview Writing\n\nUsing ONLY the subjects listed below, write ONE natural, conversational sentence (15-25 words).\n\nTone: Casual and conversational—like you're telling someone what the video is about.\n\nGuideline structure (flexible):\nThe video [verb] [topic], [verb] [topic], and [verb] [topic]\n\nNarrative/experiential verbs (pick 3 different ones):\n- follows, explores, showcases, depicts, chronicles, presents\n\nIMPORTANT: \n- Use a different verb for each subject\n- Write naturally—don't force a rigid structure if it sounds awkward\n- Keep it simple and conversational\n- Focus on describing the EXPERIENCE or NARRATIVE, not instruction\n\nDO NOT use instructional verbs:\n- Do NOT use: demonstrates, teaches, explains, walks through, covers, discusses, goes over\n- Even if the creator shares information, describe it as narrative/experience\n- This is entertainment—describe what happens, not what is taught\n\nFORBIDDEN words (do NOT use):\n- important, importance, valuable, value, successful, success, beneficial, benefits\n- emphasizes, emphasize, highlights, highlight, key, critical, critically\n- significant, significance, essential, crucial, matters, matter\n- empowers, empower, empowering, empowerment, overcome, overcoming\n\nRules:\n- Combine subjects into one natural, flowing sentence\n- Use 3 different verbs\n- Keep it conversational—avoid stiff academic phrasing\n- Write like you're casually describing the video to someone\n\nExamples:\n\nSubjects: Game world exploration, Combat mechanics, Multiplayer interactions\n→ \"The video follows a player exploring a new game world, showcases combat mechanics, and depicts multiplayer interactions.\"\n\nSubjects: Japan trip, Local cuisine, Tokyo cultural sites\n→ \"The video chronicles a trip through Japan, explores local cuisine experiences, and showcases cultural sites in Tokyo.\"\n\nSubjects: Daily routine, Morning activities, Behind-the-scenes moments\n→ \"The video follows the creator's daily routine, presents morning activities, and showcases behind-the-scenes moments.\"\n\nNow write the overview using these subjects:\n\nSubjects:\n"

/-- The `intentPrompts` record of the lib variant (overview excluded
from its type and never looked up). -/
def intentPrompts : Intent → String
  | Intent.learn => LIB_LEARN_PROMPT
  | Intent.action => LIB_ACTION_PROMPT
  | Intent.overview => ""

/-- Model of the lib-variant `generateNotes`: overview issues the
subject-extraction call then the rewrite call; other intents issue one
call.  The surrounding `catch` turns every thrown error into
`"Failed to generate notes"`. -/
def generateNotesInner (transcript : String) (intent : Intent)
    (oracle : List (Option String)) : Except String String × List Call :=
  if intent = Intent.overview then
    let c1 : Call := ⟨"gpt-4o-mini", [("system", OVERVIEW_SCOPE_PROMPT), ("user", transcript)], 0, 200⟩
    match resp oracle 0 with
    | none => (Except.error "Failed to extract subjects", [c1])
    | some subjects =>
      if subjects = "" then (Except.error "Failed to extract subjects", [c1])
      else
        let c2 : Call :=
          ⟨"gpt-4o-mini", [("system", OVERVIEW_REWRITE_PROMPT ++ "\n" ++ subjects)], 4, 150⟩
        match resp oracle 1 with
        | none => (Except.error "Failed to generate overview", [c1, c2])
        | some ov =>
          if ov = "" then (Except.error "Failed to generate overview", [c1, c2])
          else (Except.ok ov, [c1, c2])
  else
    let c : Call :=
      ⟨"gpt-4o-mini", [("system", intentPrompts intent), ("user", transcript)], 7, 2000⟩
    match resp oracle 0 with
    | none => (Except.error "No content returned from model", [c])
    | some notes =>
      if notes = "" then (Except.error "No content returned from model", [c])
      else (Except.ok notes, [c])

def generateNotes (transcript : String) (intent : Intent)
    (oracle : List (Option String)) : Except String String × List Call :=
  match generateNotesInner transcript intent oracle with
  | (Except.ok notes, calls) => (Except.ok notes, calls)
  | (Except.error _, calls) => (Except.error "Failed to generate notes", calls)

end NotesLib


/-! ## Supporting lemmas -/

theorem processLine_nodup (acc : List (List Char)) (l : List Char)
    (h : acc.Nodup) : (processLine acc l).Nodup := by
  unfold processLine
  dsimp only
  split
  · exact h
  · split
    · rename_i hcond
      simp only [Bool.and_eq_true, Bool.not_eq_true'] at hcond
      refine List.Nodup.append h (List.nodup_singleton _) ?_
      intro x hx hx1
      rcases List.mem_singleton.mp hx1 with rfl
      exact absurd hx (by simpa using hcond.2)
    · exact h

theorem foldl_processLine_nodup :
    ∀ (ls : List (List Char)) (acc : List (List Char)), acc.Nodup →
      (ls.foldl processLine acc).Nodup := by
  intro ls
  induction ls with
  | nil => intro acc h; exact h
  | cons l ls ih => intro acc h; exact ih _ (processLine_nodup acc l h)

theorem processLine_skip (acc : List (List Char)) (l : List Char)
    (h : lineSkip (trimChars l) = true) : processLine acc l = acc := by
  unfold processLine
  dsimp only
  rw [if_pos h]

theorem foldl_processLine_skipAll :
    ∀ (ls : List (List Char)) (acc : List (List Char)),
      (∀ l ∈ ls, lineSkip (trimChars l) = true) → ls.foldl processLine acc = acc := by
  intro ls
  induction ls with
  | nil => intro acc _; rfl
  | cons l ls ih =>
    intro acc h
    rw [List.foldl_cons, processLine_skip acc l (h l (List.mem_cons_self _ _))]
    exact ih acc fun x hx => h x (List.mem_cons_of_mem _ hx)

/-- A line is the `WEBVTT` format header (as `parseVTT` classifies it). -/
def isHeaderLine (l : List Char) : Bool := trimChars l == "WEBVTT".data

/-- A line is `Kind:`/`Language:` metadata (as `parseVTT` classifies it). -/
def isMetadataLine (l : List Char) : Bool :=
  startsWithL "Kind:".data (trimChars l) || startsWithL "Language:".data (trimChars l)

/-- A line is a timing line: it contains the `-->` separator. -/
def isTimingLine (l : List Char) : Bool := containsSubstring (trimChars l) "-->".data

/-- A line is a pure cue-index number. -/
def isCueIndexLine (l : List Char) : Bool := isAllDigits (trimChars l)

theorem lineSkip_of_category (l : List Char)
    (h : (isHeaderLine l || isMetadataLine l || isTimingLine l || isCueIndexLine l) = true) :
    lineSkip (trimChars l) = true := by
  simp only [isHeaderLine, isMetadataLine, isTimingLine, isCueIndexLine,
    Bool.or_eq_true] at h
  unfold lineSkip
  rcases h with ((h | (h | h)) | h) | h <;> simp [h]

/-- No newline occurs in `s`. -/
def noNewline (s : List Char) : Bool := s.all fun c => c != '\n'

theorem splitLinesAux_no_newline :
    ∀ (s acc : List Char), noNewline s = true →
      splitLinesAux s acc = [acc.reverse ++ s] := by
  intro s
  induction s with
  | nil => intro acc _; simp [splitLinesAux]
  | cons c rest ih =>
    intro acc h
    simp only [noNewline, List.all_cons, Bool.and_eq_true, bne_iff_ne] at h
    simp only [splitLinesAux, if_neg h.1]
    rw [ih (c :: acc) (by simpa [noNewline] using h.2)]
    simp

theorem probeEn_eq (w : World) :
    probeEn w = (possibleEnFiles w.tempPath).find? w.fileExists := by
  unfold probeEn
  exact ite_self _

theorem selectSubtitleFile_of_find (vid f : String) (w : World)
    (hfind : (possibleEnFiles w.tempPath).find? w.fileExists = some f) :
    selectSubtitleFile vid w = (some f, []) := by
  unfold selectSubtitleFile
  rw [probeEn_eq, hfind]

theorem readPhase_of_exists (f : String) (w : World)
    (hex : w.fileExists f = true) :
    readPhase f w =
      ((if parseVTT (w.read f) = "" || (trimChars (parseVTT (w.read f)).data).isEmpty
          then Except.error "Transcript is empty"
          else Except.ok (parseVTT (w.read f))),
        [Action.readF f, Action.cleanup w.tempPath]) := by
  unfold readPhase
  simp only [hex, if_true]
  split <;> rfl

theorem getTranscriptInner_en (vid f : String) (w : World)
    (hfind : (possibleEnFiles w.tempPath).find? w.fileExists = some f) :
    getTranscriptInner vid w =
      ((if parseVTT (w.read f) = "" || (trimChars (parseVTT (w.read f)).data).isEmpty
          then Except.error "Transcript is empty"
          else Except.ok (parseVTT (w.read f))),
        [Action.mkTemp w.tempPath, Action.tool (dlEnCmd w.tempPath vid),
          Action.readF f, Action.cleanup w.tempPath]) := by
  unfold getTranscriptInner
  rw [selectSubtitleFile_of_find vid f w hfind]
  dsimp only
  rw [readPhase_of_exists f w (List.find?_some hfind)]
  simp

theorem getTranscript_en (url vid f : String) (w : World)
    (hurl : extractVideoId url = some vid)
    (hfind : (possibleEnFiles w.tempPath).find? w.fileExists = some f) :
    (getTranscript url w).1 =
      (if parseVTT (w.read f) = "" || (trimChars (parseVTT (w.read f)).data).isEmpty
        then Except.error
          "No transcript available for this video. The video may not have captions."
        else Except.ok (parseVTT (w.read f))) ∧
      Action.readF f ∈ (getTranscript url w).2 := by
  unfold getTranscript
  rw [hurl]
  dsimp only
  rw [getTranscriptInner_en vid f w hfind]
  by_cases hcond :
      (parseVTT (w.read f) = "" || (trimChars (parseVTT (w.read f)).data).isEmpty) = true
  · simp only [hcond, if_true]
    refine ⟨?_, by simp⟩
    have : mapCaughtError "Transcript is empty" =
        "No transcript available for this video. The video may not have captions." := by decide
    simp [this]
  · simp only [Bool.not_eq_true] at hcond
    simp [hcond]

/-! ## Claims -/

/-- Claim C4: the sequence of kept lines that cue normalization joins is
duplicate-free under exact string equality, for every caption file;
hence a cleaned cue line occurring more than once (at any distance) is
kept exactly once in the transcript. -/
theorem vtt_kept_lines_nodup (s : String) : (vttTextLines s.data).Nodup :=
  foldl_processLine_nodup _ _ List.nodup_nil

/-- Claim C2: for every input URL matching none of the three recognized
shapes, `getTranscript` fails with the `InvalidReference` kind (and no
other), and its action trace is empty: the external caption tool is
never invoked and no temporary path is created. -/
theorem extract_invalid_url_fails_first (url : String) (w : World)
    (h : extractVideoId url = none) :
    getTranscript url w = (Except.error "Invalid YouTube URL", []) ∧
      errorKind "Invalid YouTube URL" = ExtractErrorKind.InvalidReference := by
  constructor
  · unfold getTranscript
    rw [h]
  · rfl

/-- Witness for C2 at the spec's scenario-C input `"not a url"`. -/
theorem extract_invalid_url_fails_first_witness :
    getTranscript "not a url" ⟨"T", true, fun _ => false, none, true, fun _ => ""⟩ =
      (Except.error "Invalid YouTube URL", []) :=
  (extract_invalid_url_fails_first "not a url" _ (by decide)).1

/-- Claim C5 counterexample: cue normalization is not idempotent on every
input string: on `"&amp;amp;"` one pass yields `"&amp;"` (the leading
`&amp;` is decoded, the freshly produced text is not rescanned), and a
second pass decodes that further to `"&"`. -/
theorem parseVTT_not_idempotent :
    parseVTT "&amp;amp;" = "&amp;" ∧ parseVTT (parseVTT "&amp;amp;") = "&" ∧
      parseVTT (parseVTT "&amp;amp;") ≠ parseVTT "&amp;amp;" :=
  ⟨by decide, by decide, by decide⟩

/-- Claim C5 (amended): cue normalization is idempotent on inputs whose
normalized output is already clean, i.e. empty, or a (necessarily
newline-free) single line that the normalizer neither skips nor
alters. -/
theorem parseVTT_idempotent_on_clean (s : String)
    (h : parseVTT s = "" ∨
      (noNewline (parseVTT s).data = true ∧
        lineSkip (trimChars (parseVTT s).data) = false ∧
        cleanedLine (trimChars (parseVTT s).data) = (parseVTT s).data ∧
        (parseVTT s).data ≠ [])) :
    parseVTT (parseVTT s) = parseVTT s := by
  rcases h with h | ⟨hn, hskip, hclean, hne⟩
  · rw [h]; decide
  · show String.mk (parseVTTChars (parseVTT s).data) = parseVTT s
    unfold parseVTTChars vttTextLines
    rw [show splitLines (parseVTT s).data = [(parseVTT s).data] from by
      unfold splitLines
      simpa using splitLinesAux_no_newline _ [] hn]
    rw [List.foldl_cons, List.foldl_nil]
    unfold processLine
    dsimp only
    rw [if_neg (by simp [hskip]), hclean,
      if_pos (by simp [List.isEmpty_iff, hne])]
    simp [joinSpace]

/-- Witness for the amended C5. -/
theorem parseVTT_idempotent_on_clean_witness :
    parseVTT (parseVTT "WEBVTT\nhello world") = parseVTT "WEBVTT\nhello world" :=
  parseVTT_idempotent_on_clean "WEBVTT\nhello world"
    (Or.inr ⟨by decide, by decide, by decide, by decide⟩)

/-- Claim C3: for every caption file consisting solely of the format
header, metadata lines, timing lines, and cue-index lines, cue
normalization yields empty text, and extraction on such a file fails
with the `NoCaptionsAvailable` kind (not `ExtractionFailed`). -/
theorem header_only_file_no_captions (url vid f content : String) (w : World)
    (hcat : ∀ l ∈ splitLines content.data,
      (isHeaderLine l || isMetadataLine l || isTimingLine l || isCueIndexLine l) = true)
    (hurl : extractVideoId url = some vid)
    (hfind : (possibleEnFiles w.tempPath).find? w.fileExists = some f)
    (hread : w.read f = content) :
    parseVTT content = "" ∧
      (getTranscript url w).1 = Except.error
        "No transcript available for this video. The video may not have captions." ∧
      errorKind
          "No transcript available for this video. The video may not have captions." =
        ExtractErrorKind.NoCaptionsAvailable := by
  have hparse : parseVTT content = "" := by
    show String.mk (parseVTTChars content.data) = ""
    unfold parseVTTChars vttTextLines
    rw [foldl_processLine_skipAll _ [] fun l hl => lineSkip_of_category l (hcat l hl)]
    rfl
  refine ⟨hparse, ?_, rfl⟩
  have h2 := (getTranscript_en url vid f w hurl hfind).1
  rw [hread, hparse] at h2
  simpa using h2

/-- Witness for C3: a file of exactly one header line, two metadata
lines, one cue-index line and one timing line. -/
theorem header_only_file_no_captions_witness :
    (getTranscript "https://youtu.be/dQw4w9WgXcQ"
        ⟨"T", true, fun s => s == "T.en.vtt", none, true,
          fun _ => "WEBVTT\nKind: captions\nLanguage: en\n1\n00:00:00.000 --> 00:00:02.000"⟩).1 =
      Except.error
        "No transcript available for this video. The video may not have captions." :=
  (header_only_file_no_captions "https://youtu.be/dQw4w9WgXcQ" "dQw4w9WgXcQ" "T.en.vtt"
    "WEBVTT\nKind: captions\nLanguage: en\n1\n00:00:00.000 --> 00:00:02.000"
    ⟨"T", true, fun s => s == "T.en.vtt", none, true,
      fun _ => "WEBVTT\nKind: captions\nLanguage: en\n1\n00:00:00.000 --> 00:00:02.000"⟩
    (by decide) (by decide) (by decide) rfl).2.1

/-- Claim C6: after the primary English caption download attempt the four
English variant files are probed in the fixed order en, en-US, en-GB,
en-orig (the `possibleEnFiles` list), the first existing one is
selected and read, and the outcome is determined by that file's content
alone.  In particular the exit status of the primary download (the
`enDownloadOk` field) never influences the result: a non-zero exit
alone never causes failure when a variant file was written. -/
theorem english_probe_order_exit_independent :
    (∀ (url : String) (w₁ w₂ : World),
      w₁.tempPath = w₂.tempPath → w₁.fileExists = w₂.fileExists →
      w₁.listSubs = w₂.listSubs → w₁.langDownloadOk = w₂.langDownloadOk →
      w₁.read = w₂.read →
      getTranscript url w₁ = getTranscript url w₂) ∧
    (∀ (url vid f : String) (w : World),
      extractVideoId url = some vid →
      (possibleEnFiles w.tempPath).find? w.fileExists = some f →
      Action.readF f ∈ (getTranscript url w).2 ∧
        (getTranscript url w).1 =
          (if parseVTT (w.read f) = "" || (trimChars (parseVTT (w.read f)).data).isEmpty
            then Except.error
              "No transcript available for this video. The video may not have captions."
            else Except.ok (parseVTT (w.read f)))) := by
  constructor
  · intro url w₁ w₂ h1 h2 h3 h4 h5
    obtain ⟨t1, e1, f1, l1, d1, r1⟩ := w₁
    obtain ⟨t2, e2, f2, l2, d2, r2⟩ := w₂
    dsimp only at h1 h2 h3 h4 h5
    subst h1; subst h2; subst h3; subst h4; subst h5
    unfold getTranscript getTranscriptInner selectSubtitleFile langFallback readPhase
    rw [probeEn_eq, probeEn_eq]
  · intro url vid f w hurl hfind
    exact ⟨(getTranscript_en url vid f w hurl hfind).2,
      (getTranscript_en url vid f w hurl hfind).1⟩

/-- Witness for C6: two worlds differing only in the primary download's
exit status give identical results, and with only the `en-US` variant
written that file is the one read and its parsed content is
returned. -/
theorem english_probe_order_exit_independent_witness :
    getTranscript "https://youtu.be/dQw4w9WgXcQ"
        ⟨"T", true, fun s => s == "T.en-US.vtt", none, true, fun _ => "WEBVTT\nhi there"⟩ =
      getTranscript "https://youtu.be/dQw4w9WgXcQ"
        ⟨"T", false, fun s => s == "T.en-US.vtt", none, true, fun _ => "WEBVTT\nhi there"⟩ ∧
    Action.readF "T.en-US.vtt" ∈
      (getTranscript "https://youtu.be/dQw4w9WgXcQ"
        ⟨"T", false, fun s => s == "T.en-US.vtt", none, true, fun _ => "WEBVTT\nhi there"⟩).2 ∧
    (getTranscript "https://youtu.be/dQw4w9WgXcQ"
        ⟨"T", false, fun s => s == "T.en-US.vtt", none, true, fun _ => "WEBVTT\nhi there"⟩).1 =
      Except.ok "hi there" := by
  refine ⟨english_probe_order_exit_independent.1 "https://youtu.be/dQw4w9WgXcQ"
    ⟨"T", true, fun s => s == "T.en-US.vtt", none, true, fun _ => "WEBVTT\nhi there"⟩
    ⟨"T", false, fun s => s == "T.en-US.vtt", none, true, fun _ => "WEBVTT\nhi there"⟩
    rfl rfl rfl rfl rfl, ?_, ?_⟩
  · exact (english_probe_order_exit_independent.2 "https://youtu.be/dQw4w9WgXcQ"
      "dQw4w9WgXcQ" "T.en-US.vtt"
      ⟨"T", false, fun s => s == "T.en-US.vtt", none, true, fun _ => "WEBVTT\nhi there"⟩
      (by decide) (by decide)).1
  · have h := (english_probe_order_exit_independent.2 "https://youtu.be/dQw4w9WgXcQ"
      "dQw4w9WgXcQ" "T.en-US.vtt"
      ⟨"T", false, fun s => s == "T.en-US.vtt", none, true, fun _ => "WEBVTT\nhi there"⟩
      (by decide) (by decide)).2
    rw [h]
    dsimp only
    rw [if_neg (by decide)]
    rfl

/-- Claim C10: the overview fallback trigger is strictly broader than the
spec-listed forbidden vocabulary: the combined pattern also matches the
standalone word `advice` and the plural `keys`, neither of which the
spec lists, so a fast-path output containing no spec-listed term can
still trigger the two-step fallback (three completion calls in
total). -/
theorem forbidden_pattern_broader_than_spec :
    specListedForbiddenTest "The speaker offers advice on budgeting." = false ∧
      forbiddenWordsTest "The speaker offers advice on budgeting." = true ∧
      specListedForbiddenTest "It lists keys to a tidy desk." = false ∧
      forbiddenWordsTest "It lists keys to a tidy desk." = true ∧
      (NotesCT.generateNotes "t" NotesCT.Intent.overview NotesCT.VideoType.educational
          [some "The speaker offers advice on budgeting.", some "- budgeting basics",
            some "ok"]).2.length = 3 :=
  ⟨by decide, by decide, by decide, by decide, by decide⟩

/-- Claim C7: for every transcript and every intent in {learn, reference,
action}, `generateNotes` issues exactly one completion call, and when
that call returns no content (`None`, or the empty string, which is
falsy in JS) the operation fails with the `GenerationFailed` message
rather than returning an empty string.  Stated for the
content-type-aware variant (which has all three intents) and for the
`src/lib/notes.ts` variant (whose intent type has learn and action). -/
theorem single_call_intents :
    (∀ (t : String) (vt : NotesCT.VideoType) (oracle : List (Option String))
        (i : NotesCT.Intent),
      (i = NotesCT.Intent.learn ∨ i = NotesCT.Intent.reference ∨ i = NotesCT.Intent.action) →
      (NotesCT.generateNotes t i vt oracle).2.length = 1 ∧
        ((resp oracle 0 = none ∨ resp oracle 0 = some "") →
          (NotesCT.generateNotes t i vt oracle).1 = Except.error "Failed to generate notes") ∧
        (∀ s, resp oracle 0 = some s → s ≠ "" →
          (NotesCT.generateNotes t i vt oracle).1 = Except.ok s)) ∧
    (∀ (t : String) (oracle : List (Option String)) (i : NotesLib.Intent),
      (i = NotesLib.Intent.learn ∨ i = NotesLib.Intent.action) →
      (NotesLib.generateNotes t i oracle).2.length = 1 ∧
        ((resp oracle 0 = none ∨ resp oracle 0 = some "") →
          (NotesLib.generateNotes t i oracle).1 = Except.error "Failed to generate notes") ∧
        (∀ s, resp oracle 0 = some s → s ≠ "" →
          (NotesLib.generateNotes t i oracle).1 = Except.ok s)) := by
  constructor
  · intro t vt oracle i hi
    rcases hi with rfl | rfl | rfl <;>
    · cases h0 : resp oracle 0 with
      | none => simp [NotesCT.generateNotes, NotesCT.generateNotesInner, h0]
      | some s =>
        by_cases hs : s = "" <;>
          simp [NotesCT.generateNotes, NotesCT.generateNotesInner, h0, hs]
  · intro t oracle i hi
    rcases hi with rfl | rfl <;>
    · cases h0 : resp oracle 0 with
      | none => simp [NotesLib.generateNotes, NotesLib.generateNotesInner, h0]
      | some s =>
        by_cases hs : s = "" <;>
          simp [NotesLib.generateNotes, NotesLib.generateNotesInner, h0, hs]

/-- Witness for C7: a learn request with content returns it in one call;
an action request against an empty response fails. -/
theorem single_call_intents_witness :
    (NotesCT.generateNotes "tr" NotesCT.Intent.learn NotesCT.VideoType.educational
        [some "notes"]).2.length = 1 ∧
      (NotesCT.generateNotes "tr" NotesCT.Intent.learn NotesCT.VideoType.educational
        [some "notes"]).1 = Except.ok "notes" ∧
      (NotesLib.generateNotes "tr" NotesLib.Intent.action []).1 =
        Except.error "Failed to generate notes" := by
  refine ⟨(single_call_intents.1 "tr" NotesCT.VideoType.educational [some "notes"]
    NotesCT.Intent.learn (Or.inl rfl)).1, ?_, ?_⟩
  · exact (single_call_intents.1 "tr" NotesCT.VideoType.educational [some "notes"]
      NotesCT.Intent.learn (Or.inl rfl)).2.2 "notes" rfl (by decide)
  · exact (single_call_intents.2 "tr" [] NotesLib.Intent.action
      (Or.inr rfl)).2.1 (Or.inl rfl)

theorem generateNotes_calls (t : String) (i : NotesCT.Intent) (vt : NotesCT.VideoType)
    (oracle : List (Option String)) :
    (NotesCT.generateNotes t i vt oracle).2 =
      (NotesCT.generateNotesInner t i vt oracle).2 := by
  unfold NotesCT.generateNotes
  rcases h : NotesCT.generateNotesInner t i vt oracle with ⟨r, calls⟩
  cases r <;> rfl

theorem overviewFallback_calls_mem (sp rp t : String) (c1 : Call)
    (oracle : List (Option String)) (c : Call)
    (hc : c ∈ (NotesCT.overviewFallback sp rp t c1 oracle).2) :
    c = c1 ∨ c = ⟨"gpt-4o-mini", [("system", sp), ("user", t)], 0, 200⟩ ∨
      ∃ subj, c = ⟨"gpt-4o-mini", [("system", rp ++ "\n" ++ subj)], 4, 150⟩ := by
  unfold NotesCT.overviewFallback at hc
  cases h1 : resp oracle 1 with
  | none =>
    rw [h1] at hc
    simp only [List.mem_cons, List.not_mem_nil, or_false] at hc
    rcases hc with rfl | rfl
    · exact Or.inl rfl
    · exact Or.inr (Or.inl rfl)
  | some subj =>
    rw [h1] at hc
    try dsimp only at hc
    by_cases hs : subj = ""
    · rw [if_pos hs] at hc
      simp only [List.mem_cons, List.not_mem_nil, or_false] at hc
      rcases hc with rfl | rfl
      · exact Or.inl rfl
      · exact Or.inr (Or.inl rfl)
    · rw [if_neg hs] at hc
      try dsimp only at hc
      cases h2 : resp oracle 2 with
      | none =>
        rw [h2] at hc
        try dsimp only at hc
        simp only [List.mem_cons, List.not_mem_nil, or_false] at hc
        rcases hc with rfl | rfl | rfl
        · exact Or.inl rfl
        · exact Or.inr (Or.inl rfl)
        · exact Or.inr (Or.inr ⟨subj, rfl⟩)
      | some ov =>
        rw [h2] at hc
        try dsimp only at hc
        have hc2 : c ∈ [c1, (⟨"gpt-4o-mini", [("system", sp), ("user", t)], 0, 200⟩ : Call),
            ⟨"gpt-4o-mini", [("system", rp ++ "\n" ++ subj)], 4, 150⟩] := by
          by_cases ho : ov = ""
          · rwa [if_pos ho] at hc
          · rwa [if_neg ho] at hc
        simp only [List.mem_cons, List.not_mem_nil, or_false] at hc2
        rcases hc2 with rfl | rfl | rfl
        · exact Or.inl rfl
        · exact Or.inr (Or.inl rfl)
        · exact Or.inr (Or.inr ⟨subj, rfl⟩)

/-- Claim C9: when the optional content-type hint is absent, the
content-type-aware `generateNotes` behaves identically to an explicit
`educational` hint (the source's parameter default), and in particular
the overview intent without a hint draws every system prompt from the
educational prompt family: the fast-path prompt, the subject-extraction
prompt, or the rewrite prompt (extended with the extracted
subjects). -/
theorem noHint_defaults_educational :
    (∀ (t : String) (i : NotesCT.Intent) (oracle : List (Option String)),
      NotesCT.generateNotesNoHint t i oracle =
        NotesCT.generateNotes t i NotesCT.VideoType.educational oracle) ∧
    (∀ (t : String) (oracle : List (Option String)) (c : Call),
      c ∈ (NotesCT.generateNotesNoHint t NotesCT.Intent.overview oracle).2 →
      ∀ m ∈ c.messages, m.1 = "system" →
        (m.2 = NotesCT.EDUCATIONAL_OVERVIEW_PROMPT ∨
          m.2 = NotesCT.EDUCATIONAL_OVERVIEW_SCOPE_PROMPT ∨
          ∃ subj, m.2 = NotesCT.EDUCATIONAL_OVERVIEW_REWRITE_PROMPT ++ "\n" ++ subj)) := by
  constructor
  · intro t i oracle
    rfl
  · intro t oracle c hc m hm hsys
    rw [NotesCT.generateNotesNoHint, generateNotes_calls] at hc
    have hc2 : c ∈ (match resp oracle 0 with
        | none => NotesCT.overviewFallback NotesCT.EDUCATIONAL_OVERVIEW_SCOPE_PROMPT
            NotesCT.EDUCATIONAL_OVERVIEW_REWRITE_PROMPT t
            ⟨"gpt-4o-mini", [("system", NotesCT.EDUCATIONAL_OVERVIEW_PROMPT), ("user", t)],
              4, 150⟩ oracle
        | some fast =>
          if fast = "" || forbiddenWordsTest fast then
            NotesCT.overviewFallback NotesCT.EDUCATIONAL_OVERVIEW_SCOPE_PROMPT
              NotesCT.EDUCATIONAL_OVERVIEW_REWRITE_PROMPT t
              ⟨"gpt-4o-mini", [("system", NotesCT.EDUCATIONAL_OVERVIEW_PROMPT), ("user", t)],
                4, 150⟩ oracle
          else (Except.ok fast,
            [⟨"gpt-4o-mini", [("system", NotesCT.EDUCATIONAL_OVERVIEW_PROMPT), ("user", t)],
              4, 150⟩])).2 := hc
    clear hc
    have hcalls : c = (⟨"gpt-4o-mini",
          [("system", NotesCT.EDUCATIONAL_OVERVIEW_PROMPT), ("user", t)], 4, 150⟩ : Call) ∨
        c = ⟨"gpt-4o-mini",
          [("system", NotesCT.EDUCATIONAL_OVERVIEW_SCOPE_PROMPT), ("user", t)], 0, 200⟩ ∨
        ∃ subj, c = ⟨"gpt-4o-mini",
          [("system", NotesCT.EDUCATIONAL_OVERVIEW_REWRITE_PROMPT ++ "\n" ++ subj)], 4, 150⟩ := by
      cases h0 : resp oracle 0 with
      | none =>
        rw [h0] at hc2
        exact overviewFallback_calls_mem _ _ _ _ _ _ hc2
      | some fast =>
        rw [h0] at hc2
        dsimp only at hc2
        by_cases hfa : (fast = "" || forbiddenWordsTest fast) = true
        · rw [if_pos hfa] at hc2
          exact overviewFallback_calls_mem _ _ _ _ _ _ hc2
        · rw [if_neg hfa] at hc2
          simp only [List.mem_cons, List.not_mem_nil, or_false] at hc2
          exact Or.inl hc2
    rcases hcalls with rfl | rfl | ⟨subj, rfl⟩
    · simp only [List.mem_cons, List.not_mem_nil, or_false] at hm
      rcases hm with rfl | rfl
      · exact Or.inl rfl
      · simp at hsys
    · simp only [List.mem_cons, List.not_mem_nil, or_false] at hm
      rcases hm with rfl | rfl
      · exact Or.inr (Or.inl rfl)
      · simp at hsys
    · simp only [List.mem_cons, List.not_mem_nil, or_false] at hm
      rcases hm with rfl
      exact Or.inr (Or.inr ⟨subj, rfl⟩)

/-- Witness for C9: the hint-free call equals the explicit-educational
call, and the fast-path call's system message carries an
educational-family prompt. -/
theorem noHint_defaults_educational_witness :
    NotesCT.generateNotesNoHint "tr" NotesCT.Intent.overview [some "The video covers cooking."] =
      NotesCT.generateNotes "tr" NotesCT.Intent.overview NotesCT.VideoType.educational
        [some "The video covers cooking."] ∧
    ((("system", NotesCT.EDUCATIONAL_OVERVIEW_PROMPT) : String × String).2 =
        NotesCT.EDUCATIONAL_OVERVIEW_PROMPT ∨
      (("system", NotesCT.EDUCATIONAL_OVERVIEW_PROMPT) : String × String).2 =
        NotesCT.EDUCATIONAL_OVERVIEW_SCOPE_PROMPT ∨
      ∃ subj, (("system", NotesCT.EDUCATIONAL_OVERVIEW_PROMPT) : String × String).2 =
        NotesCT.EDUCATIONAL_OVERVIEW_REWRITE_PROMPT ++ "\n" ++ subj) := by
  constructor
  · exact noHint_defaults_educational.1 "tr" NotesCT.Intent.overview
      [some "The video covers cooking."]
  · exact noHint_defaults_educational.2 "tr" [some "The video covers cooking."]
      ⟨"gpt-4o-mini", [("system", NotesCT.EDUCATIONAL_OVERVIEW_PROMPT), ("user", "tr")], 4, 150⟩
      (show _ ∈ [(⟨"gpt-4o-mini",
          [("system", NotesCT.EDUCATIONAL_OVERVIEW_PROMPT), ("user", "tr")], 4, 150⟩ : Call)]
        from List.mem_singleton.mpr rfl)
      ("system", NotesCT.EDUCATIONAL_OVERVIEW_PROMPT)
      (List.mem_cons_self _ _) rfl

/-- The effect of `generateNotes`'s `catch` on the thrown/returned
value. -/
def catchWrap (r : Except String String) : Except String String :=
  match r with
  | Except.ok notes => Except.ok notes
  | Except.error _ => Except.error "Failed to generate notes"

theorem generateNotes_fst (t : String) (i : NotesCT.Intent) (vt : NotesCT.VideoType)
    (oracle : List (Option String)) :
    (NotesCT.generateNotes t i vt oracle).1 =
      catchWrap (NotesCT.generateNotesInner t i vt oracle).1 := by
  unfold NotesCT.generateNotes
  rcases h : NotesCT.generateNotesInner t i vt oracle with ⟨r, calls⟩
  cases r <;> rfl

theorem overviewFallback_spec (sp rp t : String) (c1 : Call)
    (oracle : List (Option String)) :
    ((resp oracle 1 = none ∨ resp oracle 1 = some "") →
      NotesCT.overviewFallback sp rp t c1 oracle =
        (Except.error "Failed to extract subjects",
          [c1, ⟨"gpt-4o-mini", [("system", sp), ("user", t)], 0, 200⟩])) ∧
    (∀ subj, resp oracle 1 = some subj → subj ≠ "" →
      ((resp oracle 2 = none ∨ resp oracle 2 = some "") →
        NotesCT.overviewFallback sp rp t c1 oracle =
          (Except.error "Failed to generate overview",
            [c1, ⟨"gpt-4o-mini", [("system", sp), ("user", t)], 0, 200⟩,
              ⟨"gpt-4o-mini", [("system", rp ++ "\n" ++ subj)], 4, 150⟩])) ∧
      (∀ ov, resp oracle 2 = some ov → ov ≠ "" →
        NotesCT.overviewFallback sp rp t c1 oracle =
          (Except.ok ov,
            [c1, ⟨"gpt-4o-mini", [("system", sp), ("user", t)], 0, 200⟩,
              ⟨"gpt-4o-mini", [("system", rp ++ "\n" ++ subj)], 4, 150⟩]))) := by
  unfold NotesCT.overviewFallback
  refine ⟨?_, ?_⟩
  · rintro (h1 | h1) <;> rw [h1] <;> rfl
  · intro subj h1 hsub
    rw [h1]
    dsimp only
    rw [if_neg hsub]
    refine ⟨?_, ?_⟩
    · rintro (h2 | h2) <;> rw [h2] <;> rfl
    · intro ov h2 hov
      rw [h2]
      dsimp only
      rw [if_neg hov]

theorem overviewFallback_len (sp rp t : String) (c1 : Call)
    (oracle : List (Option String)) :
    (NotesCT.overviewFallback sp rp t c1 oracle).2.length = 2 ∨
      (NotesCT.overviewFallback sp rp t c1 oracle).2.length = 3 := by
  have h := overviewFallback_spec sp rp t c1 oracle
  cases h1 : resp oracle 1 with
  | none => rw [h.1 (Or.inl h1)]; exact Or.inl rfl
  | some subj =>
    by_cases hs : subj = ""
    · rw [h.1 (Or.inr (hs ▸ h1))]; exact Or.inl rfl
    · have h2 := h.2 subj h1 hs
      cases hr2 : resp oracle 2 with
      | none => rw [h2.1 (Or.inl hr2)]; exact Or.inr rfl
      | some ov =>
        by_cases ho : ov = ""
        · rw [h2.1 (Or.inr (ho ▸ hr2))]; exact Or.inr rfl
        · rw [h2.2 ov hr2 ho]; exact Or.inr rfl

theorem overview_master (t sp rp fp : String) (oracle : List (Option String))
    (E : Except String String × List Call)
    (hE : E = (match resp oracle 0 with
      | none => NotesCT.overviewFallback sp rp t
          ⟨"gpt-4o-mini", [("system", fp), ("user", t)], 4, 150⟩ oracle
      | some fast =>
        if fast = "" || forbiddenWordsTest fast then
          NotesCT.overviewFallback sp rp t
            ⟨"gpt-4o-mini", [("system", fp), ("user", t)], 4, 150⟩ oracle
        else (Except.ok fast,
          [⟨"gpt-4o-mini", [("system", fp), ("user", t)], 4, 150⟩]))) :
    ((2 ≤ E.2.length) ↔ (resp oracle 0 = none ∨ resp oracle 0 = some "" ∨
        ∃ s, resp oracle 0 = some s ∧ forbiddenWordsTest s = true)) ∧
    (∀ s, resp oracle 0 = some s → s ≠ "" → forbiddenWordsTest s = false →
      E.2.length = 1 ∧ catchWrap E.1 = Except.ok s) ∧
    (∀ s, resp oracle 0 = some s → forbiddenWordsTest s = true →
      ((resp oracle 1 = none ∨ resp oracle 1 = some "") →
        E.2.length = 2 ∧ catchWrap E.1 = Except.error "Failed to generate notes") ∧
      (∀ subj, resp oracle 1 = some subj → subj ≠ "" →
        E.2.length = 3 ∧
        ((resp oracle 2 = none ∨ resp oracle 2 = some "") →
          catchWrap E.1 = Except.error "Failed to generate notes") ∧
        (∀ ov, resp oracle 2 = some ov → ov ≠ "" → catchWrap E.1 = Except.ok ov))) := by
  subst hE
  have hfb := overviewFallback_spec sp rp t
    ⟨"gpt-4o-mini", [("system", fp), ("user", t)], 4, 150⟩ oracle
  have hlen := overviewFallback_len sp rp t
    ⟨"gpt-4o-mini", [("system", fp), ("user", t)], 4, 150⟩ oracle
  cases h0 : resp oracle 0 with
  | none =>
    refine ⟨⟨fun _ => Or.inl rfl, fun _ => ?_⟩, fun s hs0 => by simp at hs0,
      fun s hs0 => by simp at hs0⟩
    rcases hlen with h | h <;> rw [h] <;> omega
  | some fast =>
    dsimp only
    by_cases hcond : (fast = "" || forbiddenWordsTest fast : Bool) = true
    · rw [if_pos hcond]
      simp only [Bool.or_eq_true, decide_eq_true_eq] at hcond
      refine ⟨⟨fun _ => ?_, fun _ => ?_⟩, ?_, ?_⟩
      · rcases hcond with hc | hc
        · exact Or.inr (Or.inl (by rw [hc]))
        · exact Or.inr (Or.inr ⟨fast, rfl, hc⟩)
      · rcases hlen with h | h <;> rw [h] <;> omega
      · intro s hs0 hsne hforb
        rcases Option.some_injective _ hs0 with rfl
        rcases hcond with hc | hc
        · exact absurd hc hsne
        · rw [hc] at hforb; cases hforb
      · intro s hs0 hforb
        rcases Option.some_injective _ hs0 with rfl
        constructor
        · intro h1
          rw [hfb.1 h1]
          exact ⟨rfl, rfl⟩
        · intro subj h1 hsub
          refine ⟨?_, ?_, ?_⟩
          · rcases (hfb.2 subj h1 hsub) with ⟨ha, _⟩
            cases hr2 : resp oracle 2 with
            | none => rw [ha (Or.inl hr2)]; rfl
            | some ov =>
              by_cases ho : ov = ""
              · rw [ha (Or.inr (ho ▸ hr2))]; rfl
              · rw [(hfb.2 subj h1 hsub).2 ov hr2 ho]; rfl
          · intro h2
            rw [(hfb.2 subj h1 hsub).1 h2]
            rfl
          · intro ov hr2 ho
            rw [(hfb.2 subj h1 hsub).2 ov hr2 ho]
            rfl
    · rw [if_neg hcond]
      simp only [Bool.or_eq_true, decide_eq_true_eq, not_or] at hcond
      refine ⟨⟨fun hle => ?_, fun hr => ?_⟩, ?_, ?_⟩
      · simp at hle
      · exfalso
        rcases hr with hr | hr | ⟨s, hs0, hforb⟩
        · cases hr
        · rcases Option.some_injective _ hr.symm with rfl
          · exact hcond.1 rfl
        · rcases Option.some_injective _ hs0 with rfl
          exact absurd hforb (by simp [hcond.2])
      · intro s hs0 hsne hforb
        rcases Option.some_injective _ hs0 with rfl
        exact ⟨rfl, rfl⟩
      · intro s hs0 hforb
        rcases Option.some_injective _ hs0 with rfl
        exact absurd hforb (by simp [hcond.2])

/-- Claim C1 (amended): for the overview intent the fallback is attempted
exactly when the fast-path result is absent, empty, or matches the
forbidden-vocabulary pattern; a present, non-empty, clean fast-path
result is returned unchanged after exactly one completion call in
total.  For a tainted fast-path result the fast text is discarded and
the fallback runs: if the subject-extraction call returns no content,
the operation fails with `GenerationFailed` after only one further call
(two in total); otherwise the rewrite call is also issued (two further
calls, three in total) and its output - which is not re-checked against
the pattern, and so may even coincide with the tainted text - is
returned, or `GenerationFailed` if it carried no content. -/
theorem overview_fastpath_fallback_amended (t : String) (vt : NotesCT.VideoType)
    (oracle : List (Option String)) :
    ((2 ≤ (NotesCT.generateNotes t NotesCT.Intent.overview vt oracle).2.length) ↔
      (resp oracle 0 = none ∨ resp oracle 0 = some "" ∨
        ∃ s, resp oracle 0 = some s ∧ forbiddenWordsTest s = true)) ∧
    (∀ s, resp oracle 0 = some s → s ≠ "" → forbiddenWordsTest s = false →
      (NotesCT.generateNotes t NotesCT.Intent.overview vt oracle).2.length = 1 ∧
        (NotesCT.generateNotes t NotesCT.Intent.overview vt oracle).1 = Except.ok s) ∧
    (∀ s, resp oracle 0 = some s → forbiddenWordsTest s = true →
      ((resp oracle 1 = none ∨ resp oracle 1 = some "") →
        (NotesCT.generateNotes t NotesCT.Intent.overview vt oracle).2.length = 2 ∧
          (NotesCT.generateNotes t NotesCT.Intent.overview vt oracle).1 =
            Except.error "Failed to generate notes") ∧
      (∀ subj, resp oracle 1 = some subj → subj ≠ "" →
        (NotesCT.generateNotes t NotesCT.Intent.overview vt oracle).2.length = 3 ∧
          ((resp oracle 2 = none ∨ resp oracle 2 = some "") →
            (NotesCT.generateNotes t NotesCT.Intent.overview vt oracle).1 =
              Except.error "Failed to generate notes") ∧
          (∀ ov, resp oracle 2 = some ov → ov ≠ "" →
            (NotesCT.generateNotes t NotesCT.Intent.overview vt oracle).1 =
              Except.ok ov))) := by
  rw [generateNotes_calls t NotesCT.Intent.overview vt oracle,
    generateNotes_fst t NotesCT.Intent.overview vt oracle]
  cases vt with
  | educational =>
    exact overview_master t NotesCT.EDUCATIONAL_OVERVIEW_SCOPE_PROMPT
      NotesCT.EDUCATIONAL_OVERVIEW_REWRITE_PROMPT NotesCT.EDUCATIONAL_OVERVIEW_PROMPT
      oracle _ rfl
  | entertainment =>
    exact overview_master t NotesCT.ENTERTAINMENT_OVERVIEW_SCOPE_PROMPT
      NotesCT.ENTERTAINMENT_OVERVIEW_REWRITE_PROMPT NotesCT.ENTERTAINMENT_OVERVIEW_PROMPT
      oracle _ rfl

/-- Witness for the amended C1: a clean fast-path result is returned
unchanged after a single call. -/
theorem overview_fastpath_fallback_amended_witness :
    (NotesCT.generateNotes "tr" NotesCT.Intent.overview NotesCT.VideoType.educational
        [some "The video covers cooking."]).2.length = 1 ∧
      (NotesCT.generateNotes "tr" NotesCT.Intent.overview NotesCT.VideoType.educational
        [some "The video covers cooking."]).1 = Except.ok "The video covers cooking." :=
  (overview_fastpath_fallback_amended "tr" NotesCT.VideoType.educational
    [some "The video covers cooking."]).2.1 "The video covers cooking." rfl
    (by decide) (by decide)

/-- Claim C1 counterexample: with a tainted fast-path result
("important" matches the forbidden pattern) the claim fails on the code
in two ways: if the rewrite call happens to return the very same
tainted sentence, that sentence IS returned (the rewrite output is not
re-checked against the pattern), and if the subject-extraction call
returns no content only one further call is issued (two calls in
total, not three). -/
theorem overview_fastpath_claim_cex :
    forbiddenWordsTest "This video shares important tips." = true ∧
      (NotesCT.generateNotes "tr" NotesCT.Intent.overview NotesCT.VideoType.educational
          [some "This video shares important tips.", some "- tips",
            some "This video shares important tips."]).1 =
        Except.ok "This video shares important tips." ∧
      (NotesCT.generateNotes "tr" NotesCT.Intent.overview NotesCT.VideoType.educational
          [some "This video shares important tips.", none]).2.length = 2 :=
  ⟨by decide, rfl, by decide⟩

/-! ### C8: unanchored matching in `extractVideoId` -/

theorem matchHere_marker (m id rest : List Char) (hlen : id.length = 11)
    (hall : id.all idChar = true) :
    matchHere m (m ++ (id ++ rest)) = some id := by
  unfold matchHere
  rw [stripWord_append]
  dsimp only
  rw [show (id ++ rest).take 11 = id from by rw [← hlen]; exact List.take_left id rest]
  rw [if_pos (by simp [hlen, hall])]

theorem findPat_of_matchHere (m s id : List Char) (h : matchHere m s = some id) :
    findPat m s = some id := by
  cases s with
  | nil =>
    cases m with
    | nil => simp [matchHere, stripWord] at h
    | cons a as => simp [matchHere, stripWord] at h
  | cons c cs =>
    unfold findPat
    rw [h]

theorem findPat_append_of_no_match (m : List Char) :
    ∀ (pre t : List Char),
      (∀ n, n < pre.length → matchHere m ((pre ++ t).drop n) = none) →
      findPat m (pre ++ t) = findPat m t := by
  intro pre
  induction pre with
  | nil => intro t _; rfl
  | cons c pre ih =>
    intro t h
    have h0 : matchHere m (c :: (pre ++ t)) = none := by
      have := h 0 (Nat.succ_pos _)
      simpa using this
    show findPat m (c :: (pre ++ t)) = findPat m t
    conv_lhs => rw [findPat]
    rw [h0]
    exact ih t fun n hn => by
      have := h (n + 1) (Nat.succ_lt_succ hn)
      simpa using this

theorem findPat_isSome_of_decomp (m : List Char) :
    ∀ (pre id rest : List Char), id.length = 11 → id.all idChar = true →
      (findPat m (pre ++ m ++ id ++ rest)).isSome = true := by
  intro pre
  induction pre with
  | nil =>
    intro id rest hlen hall
    simp only [List.nil_append]
    rw [List.append_assoc]
    rw [findPat_of_matchHere m _ id (matchHere_marker m id rest hlen hall)]
    rfl
  | cons c pre ih =>
    intro id rest hlen hall
    show (findPat m (c :: (pre ++ m ++ id ++ rest))).isSome = true
    unfold findPat
    cases hmh : matchHere m (c :: (pre ++ m ++ id ++ rest)) with
    | some found => rfl
    | none => exact ih id rest hlen hall

/-- The patterns tried before `m` in `extractVideoId`'s loop. -/
def priorMarkers (m : List Char) : List (List Char) :=
  if m = shortMarker then [watchMarker]
  else if m = embedMarker then [watchMarker, shortMarker]
  else []

/-- Claim C8: reference extraction matches its URL shapes as unanchored
substrings.  First part: whenever a recognized marker occurs anywhere
in the input followed by 11 id-class characters, `extractVideoId`
accepts the input (even with the marker embedded in a longer string and
with arbitrary text after the id).  Second part: at the leftmost
occurrence of the highest-priority matching pattern, the returned
`VideoReference` is exactly the first 11 characters after the marker,
even when `rest` begins with more id-class characters. -/
theorem extract_unanchored_first11 :
    (∀ (m pre id rest : List Char),
      (m = watchMarker ∨ m = shortMarker ∨ m = embedMarker) →
      id.length = 11 → id.all idChar = true →
      (extractVideoIdChars (pre ++ m ++ id ++ rest)).isSome = true) ∧
    (∀ (m pre id rest : List Char),
      (m = watchMarker ∨ m = shortMarker ∨ m = embedMarker) →
      id.length = 11 → id.all idChar = true →
      (∀ m', m' ∈ priorMarkers m → findPat m' (pre ++ m ++ id ++ rest) = none) →
      (∀ n, n < pre.length → matchHere m ((pre ++ m ++ id ++ rest).drop n) = none) →
      extractVideoId (String.mk (pre ++ m ++ id ++ rest)) = some (String.mk id)) := by
  constructor
  · intro m pre id rest hm hlen hall
    have hfind : (findPat m (pre ++ m ++ id ++ rest)).isSome = true :=
      findPat_isSome_of_decomp m pre id rest hlen hall
    unfold extractVideoIdChars
    cases h1 : findPat watchMarker (pre ++ m ++ id ++ rest) with
    | some found => rfl
    | none =>
      cases h2 : findPat shortMarker (pre ++ m ++ id ++ rest) with
      | some found => rfl
      | none =>
        rcases hm with rfl | rfl | rfl
        · rw [h1] at hfind; simp at hfind
        · rw [h2] at hfind; simp at hfind
        · exact hfind
  · intro m pre id rest hm hlen hall hprior hleft
    have hfp : findPat m (pre ++ m ++ id ++ rest) = some id := by
      have heq : pre ++ m ++ id ++ rest = pre ++ (m ++ (id ++ rest)) := by
        simp [List.append_assoc]
      rw [heq] at hleft
      rw [heq, findPat_append_of_no_match m pre (m ++ (id ++ rest)) hleft]
      exact findPat_of_matchHere _ _ _ (matchHere_marker m id rest hlen hall)
    unfold extractVideoId extractVideoIdChars
    rcases hm with rfl | rfl | rfl
    · rw [show (String.mk (pre ++ watchMarker ++ id ++ rest)).data =
          pre ++ watchMarker ++ id ++ rest from rfl, hfp]
      rfl
    · rw [show (String.mk (pre ++ shortMarker ++ id ++ rest)).data =
          pre ++ shortMarker ++ id ++ rest from rfl,
        hprior watchMarker (by decide), hfp]
      rfl
    · rw [show (String.mk (pre ++ embedMarker ++ id ++ rest)).data =
          pre ++ embedMarker ++ id ++ rest from rfl,
        hprior watchMarker (by decide), hprior shortMarker (by decide), hfp]
      rfl

/-- Witness for C8: an embedded short-form URL with extra id-class
characters and trailing text after the 11-character id. -/
theorem extract_unanchored_first11_witness :
    extractVideoId "see youtu.be/dQw4w9WgXcQabcd tail" = some "dQw4w9WgXcQ" := by
  have h := extract_unanchored_first11.2 shortMarker "see ".data "dQw4w9WgXcQ".data
    "abcd tail".data (Or.inr (Or.inl rfl)) (by decide) (by decide) (by decide) (by decide)
  exact h

end NoteTube
